import Mathlib

/-!
Verification development for a browser Flappy-Bird variant written in an
FRP style (rxjs).  The simulation core is embedded shallowly: JavaScript
numbers are modelled as exact rationals (every constant the simulation
uses, and every value it produces from them, is a small dyadic rational,
so float rounding never diverges on the executions the theorems touch),
the per-tick reducer of the `physics$` stream becomes the pure function
`tickStep`, the flap reducer becomes `flapStep`, the ghost reducers of
the ghost-replay variant become `ghostTickStep` and `ghostFlapStep`, and
the rxjs `merge`/`scan` fold becomes `run` over a closed event type.
A missing JavaScript value (`undefined`) and `NaN` are both modelled as
`Option.none` in the fields that can receive them from level parsing.
-/

namespace Flappy

/-! ## Constants (from the source constant tables) -/

def CANVAS_WIDTH : ℚ := 600
def CANVAS_HEIGHT : ℚ := 400
def BIRB_WIDTH : ℚ := 42
def BIRB_HEIGHT : ℚ := 30
def PIPE_WIDTH : ℚ := 120
def PIPE_SPEED : ℚ := 3
def PIPE_SPAWN_DISTANCE : ℚ := 250
def GRAVITY : ℚ := 1 / 2
def JUMP_VELOCITY : ℚ := -5
def HIT_COOLDOWN_TICKS : ℚ := 30
def DAMAGE_TICKS : ℚ := 30

/-! ## Data model -/

structure Bird where
  x : ℚ
  y : ℚ
  velocity : ℚ
  deriving DecidableEq, Repr

structure Ghost where
  x : ℚ
  y : ℚ
  velocity : ℚ
  dead : Bool := false
  deriving DecidableEq, Repr

/-- Pipe record.  The `gapY`, `gapHeight` and `time` fields come from
parsing untrusted level text, where a malformed field produces `NaN`
(or `undefined` for a missing field); both are modelled as `none`. -/
structure Pipe where
  id : ℕ
  x : ℚ
  gapY : Option ℚ
  gapHeight : Option ℚ
  time : Option ℚ
  scored : Bool := false
  deriving DecidableEq, Repr

/-- RunState: single immutable source of truth (the `State` type of the
source).  The ghost-free variant is the special case `ghosts = []`
(the source leaves the optional `ghosts` field absent there). -/
structure State where
  gameEnd : Bool
  won : Bool
  bird : Bird
  ghosts : List Ghost
  pipes : List Pipe
  lives : ℚ
  score : ℚ
  gameTime : ℚ
  hitCooldown : ℚ
  totalPipes : ℚ
  damageTicks : ℚ
  deriving DecidableEq, Repr

/-- Initial state from the source (`CANVAS_WIDTH * 0.3 = 180` exactly,
also in IEEE doubles). -/
def initialState : State :=
  { gameEnd := false
    won := false
    bird := { x := 180, y := CANVAS_HEIGHT / 2, velocity := 0 }
    ghosts := []
    pipes := []
    lives := 3
    score := 0
    gameTime := 0
    hitCooldown := 0
    totalPipes := 0
    damageTicks := 0 }

/-- The JavaScript `Math.max` on two numbers (kernel-reducible form). -/
def jsMax (a b : ℚ) : ℚ := if a < b then b else a

/-- The JavaScript `Math.min` on two numbers (kernel-reducible form). -/
def jsMin (a b : ℚ) : ℚ := if b < a then b else a

/-- Utility clamp from the source: `Math.max(min, Math.min(max, value))`. -/
def clamp (value lo hi : ℚ) : ℚ := jsMax lo (jsMin hi value)

/-! ## Level parsing

Text is handled as character lists so that every operation is
structural recursion the kernel can evaluate; `split` and `trim` are
implemented with the JavaScript semantics the source relies on. -/

/-- Whitespace as trimmed by the JavaScript `trim` (the subset that can
occur in level files). -/
def isWs (c : Char) : Bool :=
  c = ' ' || c = '\t' || c = '\n' || c = '\r'

/-- The JavaScript `split(sep)` on one-character separators: keeps
empty segments, and the empty text yields one empty segment. -/
def splitOnChar (sep : Char) : List Char → List (List Char)
  | [] => [[]]
  | c :: cs =>
      match splitOnChar sep cs with
      | [] => [[]]
      | seg :: rest => if c = sep then [] :: seg :: rest else (c :: seg) :: rest

/-- The JavaScript `trim`: strips leading and trailing whitespace. -/
def trimChars (cs : List Char) : List Char :=
  ((cs.dropWhile isWs).reverse.dropWhile isWs).reverse

/-- Accumulates the value of a digit string; `none` on a non-digit. -/
def digitsVal (cs : List Char) : Option ℕ :=
  cs.foldl (fun acc c =>
    acc.bind (fun n => if c.isDigit then some (10 * n + (c.toNat - 48)) else none)) (some 0)

/-- Unsigned decimal literal: digits with an optional single point. -/
def parseUnsigned (t : List Char) : Option ℚ :=
  match splitOnChar '.' t with
  | [ip] => if ip.isEmpty then none else (digitsVal ip).map (fun n => (n : ℚ))
  | [ip, fp] =>
      if ip.isEmpty && fp.isEmpty then none
      else
        match (if ip.isEmpty then some 0 else digitsVal ip),
              (if fp.isEmpty then some 0 else digitsVal fp) with
        | some a, some b => some ((a : ℚ) + (b : ℚ) / (10 : ℚ) ^ fp.length)
        | _, _ => none
  | _ => none

/-- Model of the JavaScript `Number(string)` conversion on the
plain-decimal subset the level format uses (optional sign, digits,
optional fraction); `none` models `NaN`. -/
def jsNumber (s : List Char) : Option ℚ :=
  match trimChars s with
  | [] => some 0
  | '-' :: rest => (parseUnsigned rest).map (fun q => -q)
  | '+' :: rest => parseUnsigned rest
  | t => parseUnsigned t

/-- Field values of one data line: `line.split(",").map(Number)`. -/
def lineNums (line : List Char) : List (Option ℚ) :=
  (splitOnChar ',' line).map jsNumber

/-- Pipe built from data line number `j` (zero-based), mirroring the
loop body of `parsePipeData`: position `CANVAS_WIDTH + j * SPAWN`,
gap fields scaled by viewport height (`NaN` propagates to `none`),
missing fields (`undefined`) also `none`. -/
def mkPipe (j : ℕ) (line : List Char) : Pipe :=
  let ns := lineNums line
  { id := j
    x := CANVAS_WIDTH + (j : ℚ) * PIPE_SPAWN_DISTANCE
    gapY := ((ns.get? 0).join).map (· * CANVAS_HEIGHT)
    gapHeight := ((ns.get? 1).join).map (· * CANVAS_HEIGHT)
    time := (ns.get? 2).join
    scored := false }

/-- The data-line loop of `parsePipeData` (index-carrying recursion). -/
def parseLines : ℕ → List (List Char) → List Pipe
  | _, [] => []
  | j, line :: rest => mkPipe j line :: parseLines (j + 1) rest

/-- The data lines of a level text: trim, split on newlines, drop the
header line. -/
def dataLines (csvContent : String) : List (List Char) :=
  (splitOnChar '\n' (trimChars csvContent.data)).drop 1

/-- The source parser: trims, splits on newlines, skips the header
line, and converts every remaining line.  Total: it never fails. -/
def parsePipeData (csvContent : String) : List Pipe :=
  parseLines 0 (dataLines csvContent)

/-- Initial game state for a parsed level (the `initialGameState` of
the source: initial state with the parsed pipes and their count). -/
def initialGameState (pd : List Pipe) : State :=
  { initialState with pipes := pd, totalPipes := (pd.length : ℚ) }

/-! ## Physics tick -/

def birdNewVelocity (s : State) : ℚ := s.bird.velocity + GRAVITY

/-- Post-gravity, clamped vertical position of the bird this tick. -/
def birdClampedY (s : State) : ℚ :=
  clamp (s.bird.y + birdNewVelocity s) (BIRB_HEIGHT / 2) (CANVAS_HEIGHT - BIRB_HEIGHT / 2)

def movePipe (p : Pipe) : Pipe := { p with x := p.x - PIPE_SPEED }

/-- Moved pipes with fully off-screen ones dropped. -/
def updatedPipes (s : State) : List Pipe :=
  (s.pipes.map movePipe).filter (fun p => decide (-PIPE_WIDTH < p.x))

/-- Whether a (moved) pipe is passed this tick: not yet scored and its
center line is now left of the fixed bird x. -/
def justPassed (s : State) (p : Pipe) : Bool :=
  !p.scored && decide (p.x + PIPE_WIDTH / 2 < s.bird.x)

/-- Gap membership of a vertical position.  Any `NaN` gap field makes
both JavaScript comparisons false, hence `false` here. -/
def insideGap (y : ℚ) (p : Pipe) : Bool :=
  match p.gapY, p.gapHeight with
  | some gy, some gh => decide (gy - gh / 2 ≤ y) && decide (y ≤ gy + gh / 2)
  | _, _ => false

/-- Pipes after the pass/score marking of this tick. -/
def scoredPipes (s : State) : List Pipe :=
  (updatedPipes s).map (fun p => if justPassed s p then { p with scored := true } else p)

/-- Number of pipes newly passed this tick with the bird inside the gap. -/
def addedScore (s : State) : ℕ :=
  ((updatedPipes s).filter (fun p => justPassed s p && insideGap (birdClampedY s) p)).length

/-- Whether some pipe newly passed this tick with the bird outside the gap. -/
def pipeCenterCollision (s : State) : Bool :=
  (updatedPipes s).any (fun p => justPassed s p && !insideGap (birdClampedY s) p)

/-- Screen bound contact of the clamped position (top or bottom, inclusive). -/
def boundsCollision (s : State) : Bool :=
  decide (birdClampedY s ≤ BIRB_HEIGHT / 2) ||
    decide (CANVAS_HEIGHT - BIRB_HEIGHT / 2 ≤ birdClampedY s)

/-- Collision flagged this tick (bounds first, then pipe center rule). -/
def collided (s : State) : Bool := boundsCollision s || pipeCenterCollision s

/-- Cooldown decremented by one with floor zero (the `nextCooldown`
local of the source). -/
def nextCooldown (s : State) : ℚ := jsMax 0 (s.hitCooldown - 1)

/-- Whether a life is lost this tick: collision flagged and the
decremented cooldown is zero (`collided && nextCooldown === 0`). -/
def lifeLost (s : State) : Bool := collided s && decide (nextCooldown s = 0)

/-- Lives after this tick (`nextLives` local of the source). -/
def nextLives (s : State) : ℚ :=
  if lifeLost s then jsMax 0 (s.lives - 1) else s.lives

/-- Cooldown carried forward (`nextCooldownOut` local of the source). -/
def nextCooldownOut (s : State) : ℚ :=
  if lifeLost s then HIT_COOLDOWN_TICKS else nextCooldown s

/-- Score after this tick (`newScore` local of the source). -/
def newScore (s : State) : ℚ := s.score + (addedScore s : ℚ)

/-- End condition reached (`allPassed` local of the source): score cap
of 20 hit, or every active pipe marked scored. -/
def allPassed (s : State) : Bool :=
  decide (20 ≤ newScore s) || (scoredPipes s).all (fun p => p.scored)

/-- Body of the physics reducer for a not-yet-ended state. -/
def tickStepGo (s : State) : State :=
  { s with
      gameTime := s.gameTime + 1
      bird := { s.bird with
                  y := birdClampedY s
                  velocity := if nextLives s = 0 then 0 else birdNewVelocity s }
      pipes := scoredPipes s
      lives := nextLives s
      hitCooldown := nextCooldownOut s
      damageTicks := if lifeLost s then DAMAGE_TICKS else jsMax 0 (s.damageTicks - 1)
      score := newScore s
      gameEnd := if nextLives s = 0 then true else (s.gameEnd || allPassed s)
      won := if 0 < nextLives s ∧ allPassed s then true else s.won }

/-- The physics tick reducer: freeze the world once the game has ended. -/
def tickStep (s : State) : State :=
  if s.gameEnd then s else tickStepGo s

/-- The player flap reducer: no effect after end of game, otherwise the
velocity is replaced by the jump velocity. -/
def flapStep (s : State) : State :=
  if s.gameEnd then s
  else { s with bird := { s.bird with velocity := JUMP_VELOCITY } }

/-! ## Ghost replay (ghost variant of the source) -/

/-- Ghost seed data read at run start (the process-wide arrays
`__allRunFlapTicksArrays`, `__allRunStartYs`, `__allRunEndTicks`).
Indexing past the end of `startYs` or `endTicks` models the JavaScript
`undefined` read. -/
structure GhostCfg where
  tickLists : List (List ℕ)
  startYs : List ℚ
  endTicks : List ℚ
  deriving DecidableEq, Repr

/-- Ghost advance: gravity then clamp, same formulas as the bird. -/
def advanceGhost (g : Ghost) : Ghost :=
  let v := g.velocity + GRAVITY
  { g with
      y := clamp (g.y + v) (BIRB_HEIGHT / 2) (CANVAS_HEIGHT - BIRB_HEIGHT / 2)
      velocity := v }

/-- Per-ghost tick body: a ghost whose recorded end tick has been
reached is marked dead and left in place, otherwise it advances. -/
def ghostStepOne (cfg : GhostCfg) (gameTime : ℚ) (i : ℕ) (g : Ghost) : Ghost :=
  match cfg.endTicks.get? i with
  | some e => if e ≤ gameTime then { g with dead := true } else advanceGhost g
  | none => advanceGhost g

/-- Ghost set used by a ghost reducer: the current ghosts if nonempty
(the source also rebuilds when the field is absent, which this model
identifies with the empty list), otherwise one fresh ghost per recorded
run, at the recorded starting height (screen middle when missing). -/
def buildGhosts (cfg : GhostCfg) (s : State) : List Ghost :=
  if s.ghosts.isEmpty then
    (List.range cfg.tickLists.length).map
      (fun i =>
        { x := s.bird.x
          y := (cfg.startYs.get? i).getD (CANVAS_HEIGHT / 2)
          velocity := 0 })
  else s.ghosts

/-- Index-carrying map of `ghostStepOne` over the ghost list (the
`baseGhosts.map((g, i) => ...)` of the source). -/
def ghostAdvanceAll (cfg : GhostCfg) (t : ℚ) : ℕ → List Ghost → List Ghost
  | _, [] => []
  | i, g :: gs => ghostStepOne cfg t i g :: ghostAdvanceAll cfg t (i + 1) gs

/-- The ghost physics reducer (`ghostReducerPhysics$`). -/
def ghostTickStep (cfg : GhostCfg) (s : State) : State :=
  if s.gameEnd then s
  else { s with ghosts := ghostAdvanceAll cfg s.gameTime 0 (buildGhosts cfg s) }

/-- Array write `baseGhosts[idx] = { ...baseGhosts[idx], velocity: JUMP }`. -/
def setGhostVel : List Ghost → ℕ → List Ghost
  | [], _ => []
  | g :: gs, 0 => { g with velocity := JUMP_VELOCITY } :: gs
  | g :: gs, Nat.succ n => g :: setGhostVel gs n

/-- Condition under which a recorded ghost impulse is applied: no end
tick recorded for that ghost, or the current game time is still before
it (`typeof endTick !== "number" || s.gameTime < endTick`). -/
def ghostSourceActive (cfg : GhostCfg) (s : State) (idx : ℕ) : Bool :=
  match cfg.endTicks.get? idx with
  | none => true
  | some e => decide (s.gameTime < e)

/-- The ghost flap reducer (`ghostReducerFlap$`): sets the addressed
ghost velocity to the jump velocity when in range and still active.
Note the source has no end-of-game guard here. -/
def ghostFlapStep (cfg : GhostCfg) (idx : ℕ) (s : State) : State :=
  let base := buildGhosts cfg s
  if idx < base.length ∧ ghostSourceActive cfg s idx then
    { s with ghosts := setGhostVel base idx }
  else { s with ghosts := base }

/-! ## Events and the fold over time -/

/-- Closed event union for the merged reducer streams: physics tick,
player flap, ghost physics tick, recorded ghost flap. -/
inductive GEvent where
  | tick : GEvent
  | flap : GEvent
  | ghostTick : GEvent
  | ghostFlap : ℕ → GEvent
  deriving DecidableEq, Repr

/-- One reducer application. -/
def step (cfg : GhostCfg) (s : State) : GEvent → State
  | .tick => tickStep s
  | .flap => flapStep s
  | .ghostTick => ghostTickStep cfg s
  | .ghostFlap idx => ghostFlapStep cfg idx s

/-- The `scan` fold: left fold of reducers over the event sequence. -/
def run (cfg : GhostCfg) (s : State) (es : List GEvent) : State :=
  es.foldl (step cfg) s

/-! ## History measure for the score invariant -/

/-- Number of obstacles marked passed on this event with the bird
inside the gap at that moment (nonzero only on a live physics tick). -/
def eventInsideCount (s : State) : GEvent → ℕ
  | .tick => if s.gameEnd then 0 else addedScore s
  | _ => 0

/-- Total number of inside-gap passes along an event trace. -/
def traceInsideCount (cfg : GhostCfg) (s : State) : List GEvent → ℕ
  | [] => 0
  | e :: es => eventInsideCount s e + traceInsideCount cfg (step cfg s e) es

/-! ## Replay ledger -/

/-- Process-wide replay ledger: recorded impulse-tick lists, starting
heights and ending ticks of completed runs. -/
structure ReplayLedger where
  flapTicksArrays : List (List ℕ)
  startYs : List ℚ
  endTicks : List ℚ
  deriving DecidableEq, Repr

/-- The record subscriber of the source, as a function of the ledger
and the completed run data: the impulse-tick list is appended only when
no identical list is already present, while the starting height and the
ending tick are appended whenever they are defined. -/
def ReplayLedger.record (led : ReplayLedger) (arr : List ℕ)
    (startY : Option ℚ) (endTick : Option ℚ) : ReplayLedger :=
  let dup : Bool := led.flapTicksArrays.any (fun old => decide (old = arr))
  { flapTicksArrays :=
      if dup then led.flapTicksArrays else led.flapTicksArrays ++ [arr]
    startYs :=
      match startY with
      | some y => led.startYs ++ [y]
      | none => led.startYs
    endTicks :=
      match endTick with
      | some t => led.endTicks ++ [t]
      | none => led.endTicks }

/-! ## Specification-side level parser -/

/-- Error taxonomy of the specification for level loading. -/
inductive LevelError where
  | malformedLevel : LevelError
  deriving DecidableEq, Repr

/-- Whether a data line parses to three numbers. -/
def lineParsesThree (line : List Char) : Bool :=
  match lineNums line with
  | [some _, some _, some _] => true
  | _ => false

/-- Specification-side parser, written from the words of the
specification for comparison with the source parser: it fails with a
MalformedLevel condition if a data line does not parse to three
numbers, and otherwise returns the same obstacles as the source. -/
def specParsePipeData (csv : String) : Except LevelError (List Pipe) :=
  if (dataLines csv).all lineParsesThree then Except.ok (parseLines 0 (dataLines csv))
  else Except.error LevelError.malformedLevel

/-! ## Derived notions used in statements -/

/-- A state whose actor carries the position and velocity of a ghost,
used to state that ghosts follow the identical integration rule. -/
def actorOf (g : Ghost) : State :=
  { initialState with bird := { x := g.x, y := g.y, velocity := g.velocity } }

/-! ## Concrete instances used by counterexamples and witnesses -/

/-- Ghost configuration of a first run (no previous runs recorded). -/
def noGhosts : GhostCfg := ⟨[], [], []⟩

/-- State about to collide with the bottom bound while the hit cooldown
is still 1 (nonzero): bird resting on the floor with downward speed. -/
def hitAtCooldownOne : State :=
  { initialState with bird := { x := 180, y := 385, velocity := 10 }, hitCooldown := 1 }

/-- Ended state with both decay counters still positive. -/
def endedCounters : State :=
  { initialState with gameEnd := true, hitCooldown := 5, damageTicks := 7 }

/-- Level with a single obstacle whose gap hugs the top of the screen
(gap center 20, gap height 40: band from 0 to 40). -/
def missLevel : String := "gapY,gapHeight,time\n0.05,0.1,1"

/-- Half of a surviving no-scoring run: four rounds of one flap
followed by 21 ticks (84 ticks; the full run repeats this twice). -/
def missRunHalf : List GEvent :=
  (List.replicate 4 (GEvent.flap :: List.replicate 21 GEvent.tick)).flatten

/-- Start state of the miss run. -/
def missRunStart : State := initialGameState (parsePipeData missLevel)

/-- State of the miss run after the first half (computed value). -/
def missRunMid : State :=
  { gameEnd := false, won := false
    bird := { x := 180, y := 242, velocity := 11 / 2 }
    ghosts := []
    pipes := [{ id := 0, x := 348, gapY := some 20, gapHeight := some 40, time := some 1,
                scored := false }]
    lives := 3, score := 0, gameTime := 84, hitCooldown := 0, totalPipes := 1
    damageTicks := 0 }

/-- Ledger already holding one completed run. -/
def dupLedger : ReplayLedger := ⟨[[5]], [200], [40]⟩

/-- Level with one obstacle crossing the middle of the screen. -/
def fallLevel : String := "h\n0.5,0.2,1"

/-- Eighty-seven physics ticks: letting the bird fall drains all three
lives (floor hits at ticks 27, 57 and 87). -/
def fallTicks : List GEvent := List.replicate 87 GEvent.tick

/-- Ghost configuration with one recorded run ending at tick 10. -/
def oneGhostCfg : GhostCfg := ⟨[[3]], [150], [10]⟩

/-- Running state carrying one live ghost, before tick 10. -/
def oneGhostState : State :=
  { initialState with ghosts := [{ x := 180, y := 100, velocity := 2 }], gameTime := 4 }

/-- The same state at a tick past the recorded end tick of the ghost. -/
def oneGhostStateLate : State := { oneGhostState with gameTime := 12 }

/-- Well-formed two-obstacle level text. -/
def twoObstacleLevel : String := "gy,gh,t\n0.5,0.2,1\n0.25,0.1,2"

/-- Second data line of `twoObstacleLevel`. -/
def twoObstacleLine : List Char := "0.25,0.1,2".data

/-- Pipe used by the scored-flag witness. -/
def farPipe : Pipe :=
  { id := 0, x := 600, gapY := some 200, gapHeight := some 120, time := some 1, scored := false }

/-!
# Theorems

The arithmetic of Rat is unsealed so that closed statements evaluate by
`decide` inside the elaborator exactly as they do in the kernel.
-/

attribute [local semireducible] Rat.add Rat.mul Rat.sub Rat.inv Rat.ofScientific

set_option maxRecDepth 8000

/-! ## Basic step lemmas -/

theorem tickStep_of_end {s : State} (h : s.gameEnd = true) : tickStep s = s := by
  simp [tickStep, h]

theorem tickStep_of_not_end {s : State} (h : s.gameEnd = false) : tickStep s = tickStepGo s := by
  simp [tickStep, h]

theorem flapStep_of_end {s : State} (h : s.gameEnd = true) : flapStep s = s := by
  simp [flapStep, h]

theorem ghostTickStep_of_end {cfg : GhostCfg} {s : State} (h : s.gameEnd = true) :
    ghostTickStep cfg s = s := by
  simp [ghostTickStep, h]

/-- The flap reducer only ever touches the bird. -/
theorem flapStep_shape (s : State) :
    flapStep s = s ∨ flapStep s = { s with bird := { s.bird with velocity := JUMP_VELOCITY } } := by
  unfold flapStep
  split
  · exact Or.inl rfl
  · exact Or.inr rfl

/-- The ghost flap reducer only ever touches the ghosts. -/
theorem ghostFlapStep_shape (cfg : GhostCfg) (idx : ℕ) (s : State) :
    ∃ gl, ghostFlapStep cfg idx s = { s with ghosts := gl } := by
  simp only [ghostFlapStep]
  split
  · exact ⟨_, rfl⟩
  · exact ⟨_, rfl⟩

/-- The ghost physics reducer only ever touches the ghosts. -/
theorem ghostTickStep_shape (cfg : GhostCfg) (s : State) :
    ghostTickStep cfg s = s ∨ ∃ gl, ghostTickStep cfg s = { s with ghosts := gl } := by
  unfold ghostTickStep
  split
  · exact Or.inl rfl
  · exact Or.inr ⟨_, rfl⟩

/-- Once ended, one step of any event keeps the end flag and the win
flag (and the only field a step can still change is the ghost list). -/
theorem step_end_frozen (cfg : GhostCfg) {s : State} (e : GEvent) (h : s.gameEnd = true) :
    (step cfg s e).gameEnd = true ∧ (step cfg s e).won = s.won := by
  cases e with
  | tick => rw [step, tickStep_of_end h]; exact ⟨h, rfl⟩
  | flap => rw [step, flapStep_of_end h]; exact ⟨h, rfl⟩
  | ghostTick => rw [step, ghostTickStep_of_end h]; exact ⟨h, rfl⟩
  | ghostFlap idx =>
      obtain ⟨gl, hgl⟩ := ghostFlapStep_shape cfg idx s
      rw [step, hgl]
      exact ⟨h, rfl⟩

/-- The fold over an appended trace is the composition of the folds. -/
theorem run_append (cfg : GhostCfg) (s : State) (es1 es2 : List GEvent) :
    run cfg s (es1 ++ es2) = run cfg (run cfg s es1) es2 :=
  List.foldl_append _ _ _ _

/-! ## Claim C2 (tick on an ended state) -/

/-- Claim C2 counterexample: on an ended state with positive counters,
the tick reducer leaves the hit-cooldown and damage counters exactly as
they were — they do not decay as the claim demands. -/
theorem c2_counterexample :
    endedCounters.gameEnd = true ∧ 0 < endedCounters.hitCooldown ∧
      0 < endedCounters.damageTicks ∧
      (tickStep endedCounters).hitCooldown = endedCounters.hitCooldown ∧
      (tickStep endedCounters).damageTicks = endedCounters.damageTicks := by
  refine ⟨rfl, by decide, by decide, ?_, ?_⟩ <;> rw [tickStep_of_end rfl]

/-- Claim C2 amended: for every state with end-of-game true, applying a
tick event returns the state unchanged in every field; in particular
the cooldown and damage counters are frozen too, not decayed. -/
theorem c2_theorem (s : State) (h : s.gameEnd = true) : tickStep s = s :=
  tickStep_of_end h

/-- Claim C2 witness. -/
theorem c2_witness : tickStep endedCounters = endedCounters :=
  c2_theorem endedCounters rfl

/-! ## Claim C8 (end-of-game and won are stable) -/

/-- Claim C8: once end-of-game is true, every later state of the run
still has end-of-game true and carries the same won flag. -/
theorem c8_theorem (cfg : GhostCfg) (s : State) (es : List GEvent) (h : s.gameEnd = true) :
    (run cfg s es).gameEnd = true ∧ (run cfg s es).won = s.won := by
  induction es generalizing s with
  | nil => exact ⟨h, rfl⟩
  | cons e es ih =>
      obtain ⟨h1, h2⟩ := step_end_frozen cfg e h
      obtain ⟨h3, h4⟩ := ih (step cfg s e) h1
      exact ⟨h3, h4.trans h2⟩

/-- Claim C8 witness: an ended winning state stays ended and won
through a tick, a flap, a ghost tick and a ghost flap. -/
theorem c8_witness :
    (run noGhosts { endedCounters with won := true }
        [GEvent.tick, GEvent.flap, GEvent.ghostTick, GEvent.ghostFlap 0]).gameEnd = true ∧
      (run noGhosts { endedCounters with won := true }
        [GEvent.tick, GEvent.flap, GEvent.ghostTick, GEvent.ghostFlap 0]).won =
        ({ endedCounters with won := true } : State).won :=
  c8_theorem noGhosts { endedCounters with won := true }
    [GEvent.tick, GEvent.flap, GEvent.ghostTick, GEvent.ghostFlap 0] rfl

/-! ## Claim C4 (ledger record on duplicate content) -/

/-- Claim C4: recording a run whose impulse-tick list is already in the
ledger keeps the tick-list collection unchanged, but still appends the
starting height and the ending tick, so those two counts grow and the
three parallel collections fall out of alignment. -/
theorem c4_theorem :
    (dupLedger.record [5] (some 190) (some 50)).flapTicksArrays = dupLedger.flapTicksArrays ∧
      (dupLedger.record [5] (some 190) (some 50)).startYs = dupLedger.startYs ++ [190] ∧
      (dupLedger.record [5] (some 190) (some 50)).endTicks = dupLedger.endTicks ++ [50] := by
  refine ⟨?_, rfl, rfl⟩
  decide

/-! ## Claim C10 (empty level wins on the first tick) -/

/-- Claim C10: when the level parses to no obstacles, the very first
tick already ends the run as won, with no score earned and no pipes. -/
theorem c10_theorem (csv : String) (h : parsePipeData csv = []) :
    (tickStep (initialGameState (parsePipeData csv))).gameEnd = true ∧
      (tickStep (initialGameState (parsePipeData csv))).won = true ∧
      (tickStep (initialGameState (parsePipeData csv))).score = 0 ∧
      (tickStep (initialGameState (parsePipeData csv))).pipes = [] := by
  rw [h]
  refine ⟨?_, ?_, ?_, ?_⟩ <;> decide

/-- Claim C10 witness: a level text consisting of only a header line. -/
theorem c10_witness :
    (tickStep (initialGameState (parsePipeData "0.5,0.3,1"))).gameEnd = true ∧
      (tickStep (initialGameState (parsePipeData "0.5,0.3,1"))).won = true ∧
      (tickStep (initialGameState (parsePipeData "0.5,0.3,1"))).score = 0 ∧
      (tickStep (initialGameState (parsePipeData "0.5,0.3,1"))).pipes = [] :=
  c10_theorem "0.5,0.3,1" (by decide)

/-! ## Claim C5 (level parsing) -/

theorem parseLines_length (j : ℕ) (ls : List (List Char)) :
    (parseLines j ls).length = ls.length := by
  induction ls generalizing j with
  | nil => rfl
  | cons l ls ih => simp [parseLines, ih]

theorem parseLines_get? (ls : List (List Char)) (j k : ℕ) :
    (parseLines j ls).get? k = (ls.get? k).map (fun line => mkPipe (j + k) line) := by
  induction ls generalizing j k with
  | nil => simp [parseLines]
  | cons l ls ih =>
      cases k with
      | zero => simp [parseLines]
      | succ k =>
          simp only [parseLines, List.get?_cons_succ, ih (j + 1) k]
          rw [show j + 1 + k = j + (k + 1) from by omega]

/-- Claim C5 counterexample: on a level whose data line does not parse
to three numbers, the parser of the specification fails with
MalformedLevel, but the source parser succeeds and returns one obstacle
whose gap-center field is NaN. -/
theorem c5_counterexample :
    specParsePipeData "h\nfoo,0.5,1" = Except.error LevelError.malformedLevel ∧
      parsePipeData "h\nfoo,0.5,1" =
        [{ id := 0, x := 600, gapY := none, gapHeight := some 200, time := some 1,
           scored := false }] :=
  ⟨rfl, by decide⟩

/-- Claim C5 amended: level parsing never fails — it returns one
obstacle per data line unconditionally (a line that does not parse to
three numbers yields NaN fields); whenever data line `j` does parse to
three numbers `a`, `b`, `c`, the obstacle at position `j` has identity
`j`, initial horizontal position `viewport_width + j * spawn_spacing`,
and gap center and height scaled by the viewport height. -/
theorem c5_theorem (csv : String) :
    (parsePipeData csv).length = (dataLines csv).length ∧
      ∀ j line, (dataLines csv).get? j = some line →
        ∀ a b c, lineNums line = [some a, some b, some c] →
          (parsePipeData csv).get? j =
            some { id := j, x := CANVAS_WIDTH + (j : ℚ) * PIPE_SPAWN_DISTANCE,
                   gapY := some (a * CANVAS_HEIGHT), gapHeight := some (b * CANVAS_HEIGHT),
                   time := some c, scored := false } := by
  refine ⟨parseLines_length 0 (dataLines csv), ?_⟩
  intro j line hline a b c hnums
  rw [parsePipeData, parseLines_get?, hline]
  simp [mkPipe, hnums, Option.join]

/-- Claim C5 witness: a well-formed two-obstacle level, checked at its
second data line. -/
theorem c5_witness :
    (parsePipeData twoObstacleLevel).get? 1 =
      some { id := 1, x := CANVAS_WIDTH + (1 : ℚ) * PIPE_SPAWN_DISTANCE,
             gapY := some (1 / 4 * CANVAS_HEIGHT), gapHeight := some (1 / 10 * CANVAS_HEIGHT),
             time := some 2, scored := false } :=
  (c5_theorem twoObstacleLevel).2 1 twoObstacleLine (by decide)
    (1 / 4) (1 / 10) 2 (by decide)

/-! ## Claim C1 (cooldown-gated life loss) -/

/-- Claim C1 counterexample: a collision tick whose pre-decrement
cooldown is 1 (nonzero) does lose a life. -/
theorem c1_counterexample :
    hitAtCooldownOne.gameEnd = false ∧ hitAtCooldownOne.hitCooldown ≠ 0 ∧
      (tickStep hitAtCooldownOne).lives < hitAtCooldownOne.lives ∧
      (tickStep hitAtCooldownOne).hitCooldown = HIT_COOLDOWN_TICKS := by
  refine ⟨rfl, by decide, by decide, by decide⟩

/-- Claim C1 amended: on a tick of a not-yet-ended state, the cooldown
is decremented by 1 with floor 0 first, and a life is lost (lives
decremented with floor 0, cooldown reset to `HIT_COOLDOWN_TICKS`) if
and only if a collision was flagged this tick and the *post-decrement*
cooldown is already 0 — equivalently, the pre-decrement cooldown was at
most 1.  No life can be lost on a tick whose pre-decrement cooldown
exceeds 1, so under continuous overlap lives drain at most once every
`HIT_COOLDOWN_TICKS` ticks, not once per tick. -/
theorem c1_theorem (s : State) (h : s.gameEnd = false) :
    (lifeLost s = true →
        (tickStep s).lives = jsMax 0 (s.lives - 1) ∧
          (tickStep s).hitCooldown = HIT_COOLDOWN_TICKS) ∧
      (lifeLost s = false →
        (tickStep s).lives = s.lives ∧
          (tickStep s).hitCooldown = jsMax 0 (s.hitCooldown - 1)) ∧
      (lifeLost s = true ↔ collided s = true ∧ jsMax 0 (s.hitCooldown - 1) = 0) ∧
      (1 < s.hitCooldown → (tickStep s).lives = s.lives) := by
  rw [tickStep_of_not_end h]
  have hiff : lifeLost s = true ↔ collided s = true ∧ jsMax 0 (s.hitCooldown - 1) = 0 := by
    simp [lifeLost, nextCooldown]
  refine ⟨?_, ?_, hiff, ?_⟩
  · intro hl
    constructor
    · show nextLives s = jsMax 0 (s.lives - 1)
      rw [nextLives, if_pos hl]
    · show nextCooldownOut s = HIT_COOLDOWN_TICKS
      rw [nextCooldownOut, if_pos hl]
  · intro hl
    constructor
    · show nextLives s = s.lives
      rw [nextLives, hl]
      rfl
    · show nextCooldownOut s = jsMax 0 (s.hitCooldown - 1)
      rw [nextCooldownOut, hl]
      rfl
  · intro hgt
    have hx : (0 : ℚ) < s.hitCooldown - 1 := by linarith
    have hne : s.hitCooldown - 1 ≠ 0 := by linarith
    have hl : lifeLost s = false := by
      have h1 : nextCooldown s = s.hitCooldown - 1 := by
        rw [nextCooldown, jsMax, if_pos hx]
      rw [lifeLost, h1]
      simp [hne]
    show nextLives s = s.lives
    rw [nextLives, hl]
    rfl

/-- Claim C1 witness: no collision and cooldown 5, so no life is lost. -/
theorem c1_witness :
    (tickStep { initialState with hitCooldown := 5 }).lives =
      ({ initialState with hitCooldown := 5 } : State).lives :=
  (c1_theorem { initialState with hitCooldown := 5 } rfl).2.2.2 (by decide)

/-! ## Claim C7 (lives bounds and monotonicity) -/

/-- Lives invariant carried along every run. -/
def LivesInv (s : State) : Prop :=
  0 ≤ s.lives ∧ s.lives ≤ 3 ∧ (s.lives = 0 → s.gameEnd = true)

theorem nextLives_le {s : State} (h0 : 0 ≤ s.lives) : nextLives s ≤ s.lives := by
  rw [nextLives]
  split
  · rw [jsMax]
    split
    · linarith
    · exact h0
  · exact le_refl _

theorem nextLives_nonneg {s : State} (h0 : 0 ≤ s.lives) : 0 ≤ nextLives s := by
  rw [nextLives]
  split
  · rw [jsMax]
    split
    · linarith
    · exact le_refl 0
  · exact h0

theorem livesInv_step (cfg : GhostCfg) (e : GEvent) {s : State} (hI : LivesInv s) :
    LivesInv (step cfg s e) ∧ (step cfg s e).lives ≤ s.lives := by
  obtain ⟨h0, h3, hz⟩ := hI
  cases e with
  | tick =>
      cases hE : s.gameEnd with
      | true => rw [step, tickStep_of_end hE]; exact ⟨⟨h0, h3, hz⟩, le_refl _⟩
      | false =>
          rw [step, tickStep_of_not_end hE]
          have hle : (tickStepGo s).lives ≤ s.lives := nextLives_le h0
          refine ⟨⟨nextLives_nonneg h0, le_trans hle h3, ?_⟩, hle⟩
          intro hzero
          have hzero2 : nextLives s = 0 := hzero
          show (if nextLives s = 0 then true else (s.gameEnd || allPassed s)) = true
          rw [if_pos hzero2]
  | flap =>
      rcases flapStep_shape s with h | h <;>
        rw [step, h] <;> exact ⟨⟨h0, h3, hz⟩, le_refl _⟩
  | ghostTick =>
      rcases ghostTickStep_shape cfg s with h | ⟨gl, h⟩ <;>
        rw [step, h] <;> exact ⟨⟨h0, h3, hz⟩, le_refl _⟩
  | ghostFlap idx =>
      obtain ⟨gl, h⟩ := ghostFlapStep_shape cfg idx s
      rw [step, h]
      exact ⟨⟨h0, h3, hz⟩, le_refl _⟩

theorem livesInv_run (cfg : GhostCfg) {s : State} (hI : LivesInv s) (es : List GEvent) :
    LivesInv (run cfg s es) := by
  induction es generalizing s with
  | nil => exact hI
  | cons e es ih => exact ih (livesInv_step cfg e hI).1

/-- Claim C7: along every run from the initial state, lives stay
between 0 and 3, reaching 0 forces end-of-game in the same state, and
lives never increase from one state to the next. -/
theorem c7_theorem (cfg : GhostCfg) (pd : List Pipe) (es : List GEvent) :
    0 ≤ (run cfg (initialGameState pd) es).lives ∧
      (run cfg (initialGameState pd) es).lives ≤ 3 ∧
      ((run cfg (initialGameState pd) es).lives = 0 →
        (run cfg (initialGameState pd) es).gameEnd = true) ∧
      ∀ e, (step cfg (run cfg (initialGameState pd) es) e).lives ≤
        (run cfg (initialGameState pd) es).lives := by
  have hInit : LivesInv (initialGameState pd) := by
    refine ⟨by norm_num [initialGameState, initialState], by norm_num [initialGameState, initialState], ?_⟩
    intro h
    norm_num [initialGameState, initialState] at h
  obtain ⟨h0, h3, hz⟩ := livesInv_run cfg hInit es
  exact ⟨h0, h3, hz, fun e => (livesInv_step cfg e ⟨h0, h3, hz⟩).2⟩

/-- Claim C7 witness: the falling run loses all three lives by tick 87
and the zero-lives state is indeed flagged as ended. -/
theorem c7_witness :
    (run noGhosts (initialGameState (parsePipeData fallLevel)) fallTicks).gameEnd = true :=
  (c7_theorem noGhosts (parsePipeData fallLevel) fallTicks).2.2.1 (by decide)

/-! ## Claim C6 (scored flag persistence and score accounting) -/

theorem score_step (cfg : GhostCfg) (e : GEvent) (s : State) :
    (step cfg s e).score = s.score + (eventInsideCount s e : ℚ) := by
  cases e with
  | tick =>
      cases hE : s.gameEnd with
      | true =>
          rw [step, tickStep_of_end hE, eventInsideCount, if_pos hE]
          norm_num
      | false =>
          rw [step, tickStep_of_not_end hE, eventInsideCount, if_neg (by rw [hE]; exact Bool.false_ne_true)]
          rfl
  | flap =>
      rcases flapStep_shape s with h | h <;> rw [step, h] <;> simp [eventInsideCount]
  | ghostTick =>
      rcases ghostTickStep_shape cfg s with h | ⟨gl, h⟩ <;> rw [step, h] <;>
        simp [eventInsideCount]
  | ghostFlap idx =>
      obtain ⟨gl, h⟩ := ghostFlapStep_shape cfg idx s
      rw [step, h]
      simp [eventInsideCount]

theorem score_run (cfg : GhostCfg) (es : List GEvent) (s : State) :
    (run cfg s es).score = s.score + (traceInsideCount cfg s es : ℚ) := by
  induction es generalizing s with
  | nil => simp [run, traceInsideCount]
  | cons e es ih =>
      show (run cfg (step cfg s e) es).score = _
      rw [ih (step cfg s e), score_step, traceInsideCount]
      push_cast
      ring

theorem pipes_mono_step (cfg : GhostCfg) (e : GEvent) (s : State) :
    ∀ q ∈ (step cfg s e).pipes, ∃ p ∈ s.pipes, q.id = p.id ∧ (p.scored = true → q.scored = true) := by
  have hid : ∀ q ∈ s.pipes, ∃ p ∈ s.pipes, q.id = p.id ∧ (p.scored = true → q.scored = true) :=
    fun q hq => ⟨q, hq, rfl, fun h => h⟩
  cases e with
  | tick =>
      cases hE : s.gameEnd with
      | true => rw [step, tickStep_of_end hE]; exact hid
      | false =>
          rw [step, tickStep_of_not_end hE]
          intro q hq
          have hq2 : q ∈ scoredPipes s := hq
          rw [scoredPipes] at hq2
          obtain ⟨p2, hp2, hq2⟩ := List.mem_map.mp hq2
          rw [updatedPipes] at hp2
          obtain ⟨hp2m, -⟩ := List.mem_filter.mp hp2
          obtain ⟨p, hp, hp2e⟩ := List.mem_map.mp hp2m
          refine ⟨p, hp, ?_, ?_⟩
          · subst hq2 hp2e
            by_cases hjp : justPassed s (movePipe p) = true
            · rw [if_pos hjp]; rfl
            · rw [if_neg hjp]; rfl
          · intro hsc
            subst hq2 hp2e
            by_cases hjp : justPassed s (movePipe p) = true
            · rw [if_pos hjp]
            · rw [if_neg hjp]
              show (movePipe p).scored = true
              exact hsc
  | flap => rcases flapStep_shape s with h | h <;> rw [step, h] <;> exact hid
  | ghostTick =>
      rcases ghostTickStep_shape cfg s with h | ⟨gl, h⟩ <;> rw [step, h] <;> exact hid
  | ghostFlap idx =>
      obtain ⟨gl, h⟩ := ghostFlapStep_shape cfg idx s
      rw [step, h]
      exact hid

theorem pipes_mono_run (cfg : GhostCfg) (es : List GEvent) (s : State) :
    ∀ q ∈ (run cfg s es).pipes, ∃ p ∈ s.pipes, q.id = p.id ∧ (p.scored = true → q.scored = true) := by
  induction es generalizing s with
  | nil => exact fun q hq => ⟨q, hq, rfl, fun h => h⟩
  | cons e es ih =>
      intro q hq
      obtain ⟨p1, hp1, hid1, hsc1⟩ := ih (step cfg s e) q hq
      obtain ⟨p, hp, hid2, hsc2⟩ := pipes_mono_step cfg e s p1 hp1
      exact ⟨p, hp, hid1.trans hid2, fun h => hsc1 (hsc2 h)⟩

/-- Claim C6: along any run, every active pipe descends from a starting
pipe with the same identity whose scored flag can only have gone from
false to true (once set it never clears), and the score always equals
the starting score plus the number of obstacles that were inside the
gap at the very moment they were marked passed. -/
theorem c6_theorem (cfg : GhostCfg) (s : State) (es : List GEvent) :
    (run cfg s es).score = s.score + (traceInsideCount cfg s es : ℚ) ∧
      ∀ q ∈ (run cfg s es).pipes,
        ∃ p ∈ s.pipes, q.id = p.id ∧ (p.scored = true → q.scored = true) :=
  ⟨score_run cfg es s, pipes_mono_run cfg es s⟩

/-- Claim C6 witness: after one tick on a one-pipe level, the moved
pipe traces back to the original pipe. -/
theorem c6_witness :
    ∃ p ∈ (initialGameState [farPipe]).pipes,
      (movePipe farPipe).id = p.id ∧ (p.scored = true → (movePipe farPipe).scored = true) :=
  (c6_theorem noGhosts (initialGameState [farPipe]) [GEvent.tick]).2 (movePipe farPipe) (by decide)

/-! ## Claim C3 (win and loss conditions) -/

theorem won_imp_end_step (cfg : GhostCfg) (e : GEvent) {s : State}
    (h : s.won = true → s.gameEnd = true) :
    (step cfg s e).won = true → (step cfg s e).gameEnd = true := by
  cases e with
  | tick =>
      cases hE : s.gameEnd with
      | true => rw [step, tickStep_of_end hE]; exact h
      | false =>
          rw [step, tickStep_of_not_end hE]
          intro hw
          have hw2 : (if 0 < nextLives s ∧ allPassed s = true then true else s.won) = true := hw
          show (if nextLives s = 0 then true else (s.gameEnd || allPassed s)) = true
          by_cases hzn : nextLives s = 0
          · rw [if_pos hzn]
          · rw [if_neg hzn]
            by_cases hc : 0 < nextLives s ∧ allPassed s = true
            · rw [hc.2, Bool.or_true]
            · rw [if_neg hc] at hw2
              rw [h hw2] at hE
              exact Bool.noConfusion hE
  | flap => rcases flapStep_shape s with hs | hs <;> rw [step, hs] <;> exact h
  | ghostTick =>
      rcases ghostTickStep_shape cfg s with hs | ⟨gl, hs⟩ <;> rw [step, hs] <;> exact h
  | ghostFlap idx =>
      obtain ⟨gl, hs⟩ := ghostFlapStep_shape cfg idx s
      rw [step, hs]
      exact h

theorem won_imp_end_run (cfg : GhostCfg) (es : List GEvent) {s : State}
    (h : s.won = true → s.gameEnd = true) :
    (run cfg s es).won = true → (run cfg s es).gameEnd = true := by
  induction es generalizing s with
  | nil => exact h
  | cons e es ih => exact ih (won_imp_end_step cfg e h)

/-- Characterization of the end and win flags produced by one live
tick from a not-yet-won, not-yet-ended state. -/
theorem tickStepGo_end_char {s : State} (hE : s.gameEnd = false) (hW : s.won = false) :
    (0 < (tickStepGo s).lives →
      (((tickStepGo s).gameEnd = true ∧ (tickStepGo s).won = true) ↔
        ((tickStepGo s).pipes.all (fun p => p.scored) = true ∨ 20 ≤ (tickStepGo s).score))) ∧
      ((tickStepGo s).lives = 0 →
        (tickStepGo s).gameEnd = true ∧ (tickStepGo s).won = false) := by
  have hap : allPassed s = true ↔
      ((tickStepGo s).pipes.all (fun p => p.scored) = true ∨ 20 ≤ (tickStepGo s).score) := by
    show allPassed s = true ↔
      ((scoredPipes s).all (fun p => p.scored) = true ∨ 20 ≤ newScore s)
    rw [allPassed, Bool.or_eq_true, decide_eq_true_iff]
    exact Or.comm
  constructor
  · intro hpos
    have hpos2 : 0 < nextLives s := hpos
    have hzn : ¬nextLives s = 0 := by
      intro h0
      rw [h0] at hpos2
      exact lt_irrefl 0 hpos2
    have hge : (tickStepGo s).gameEnd = allPassed s := by
      show (if nextLives s = 0 then true else (s.gameEnd || allPassed s)) = allPassed s
      rw [if_neg hzn, hE, Bool.false_or]
    have hwon : (tickStepGo s).won = allPassed s := by
      show (if 0 < nextLives s ∧ allPassed s = true then true else s.won) = allPassed s
      by_cases hc : allPassed s = true
      · rw [if_pos ⟨hpos2, hc⟩, hc]
      · rw [if_neg (fun hand => hc hand.2), hW]
        cases hc2 : allPassed s with
        | true => exact absurd hc2 hc
        | false => rfl
    rw [hge, hwon]
    constructor
    · rintro ⟨h1, -⟩
      exact hap.mp h1
    · intro h1
      have := hap.mpr h1
      exact ⟨this, this⟩
  · intro h0
    have h02 : nextLives s = 0 := h0
    constructor
    · show (if nextLives s = 0 then true else (s.gameEnd || allPassed s)) = true
      rw [if_pos h02]
    · show (if 0 < nextLives s ∧ allPassed s = true then true else s.won) = false
      rw [if_neg, hW]
      rintro ⟨hpos, -⟩
      rw [h02] at hpos
      exact lt_irrefl 0 hpos

/-- Claim C3 counterexample: a run that passes its single obstacle
outside the gap wins with every obstacle marked passed while the score
stays strictly below the total obstacle count — so the asserted
equivalence of the two formulations fails on the code. -/
theorem c3_counterexample :
    (run noGhosts missRunStart (missRunHalf ++ missRunHalf)).gameEnd = true ∧
      (run noGhosts missRunStart (missRunHalf ++ missRunHalf)).won = true ∧
      (run noGhosts missRunStart (missRunHalf ++ missRunHalf)).pipes.all
        (fun p => p.scored) = true ∧
      (run noGhosts missRunStart (missRunHalf ++ missRunHalf)).score <
        (run noGhosts missRunStart (missRunHalf ++ missRunHalf)).totalPipes := by
  have hmid : run noGhosts missRunStart missRunHalf = missRunMid := by decide
  have hfin : run noGhosts missRunMid missRunHalf =
      { gameEnd := true, won := true
        bird := { x := 180, y := 256, velocity := 2 }
        ghosts := []
        pipes := [{ id := 0, x := 117, gapY := some 20, gapHeight := some 40, time := some 1,
                    scored := true }]
        lives := 2, score := 0, gameTime := 161, hitCooldown := 30, totalPipes := 1
        damageTicks := 30 } := by decide
  rw [run_append, hmid, hfin]
  exact ⟨rfl, rfl, rfl, by norm_num⟩

/-- Claim C3 amended: on a live tick of a reachable state, end-of-game
and won become true together exactly when, after the tick, every active
obstacle is marked passed or the score has reached the cap 20 — the
score may stay below the total obstacle count forever, since an
obstacle passed outside its gap is marked passed without scoring; and
when lives reach 0 on a tick, end-of-game becomes true with won false. -/
theorem c3_theorem (cfg : GhostCfg) (pd : List Pipe) (es : List GEvent)
    (hE : (run cfg (initialGameState pd) es).gameEnd = false) :
    (0 < (tickStep (run cfg (initialGameState pd) es)).lives →
      (((tickStep (run cfg (initialGameState pd) es)).gameEnd = true ∧
          (tickStep (run cfg (initialGameState pd) es)).won = true) ↔
        ((tickStep (run cfg (initialGameState pd) es)).pipes.all (fun p => p.scored) = true ∨
          20 ≤ (tickStep (run cfg (initialGameState pd) es)).score))) ∧
      ((tickStep (run cfg (initialGameState pd) es)).lives = 0 →
        (tickStep (run cfg (initialGameState pd) es)).gameEnd = true ∧
          (tickStep (run cfg (initialGameState pd) es)).won = false) := by
  have hWinit : (initialGameState pd).won = true → (initialGameState pd).gameEnd = true :=
    fun h => absurd h (by rw [initialGameState]; exact Bool.false_ne_true)
  have hW : (run cfg (initialGameState pd) es).won = false := by
    cases hw : (run cfg (initialGameState pd) es).won with
    | true =>
        rw [won_imp_end_run cfg es hWinit hw] at hE
        exact Bool.noConfusion hE
    | false => rfl
  rw [tickStep_of_not_end hE]
  exact tickStepGo_end_char hE hW

/-- Claim C3 witness: on an empty level the first tick ends the run as
won, and the characterization confirms it via the vacuous all-passed
condition. -/
theorem c3_witness :
    (tickStep (run noGhosts (initialGameState []) [])).gameEnd = true ∧
      (tickStep (run noGhosts (initialGameState []) [])).won = true :=
  ((c3_theorem noGhosts [] [] rfl).1 (by decide)).mpr (Or.inl (by decide))

/-! ## Claim C9 (ghost advancement and ghost impulses) -/

theorem ghostTickStep_of_not_end {cfg : GhostCfg} {s : State} (h : s.gameEnd = false) :
    ghostTickStep cfg s = { s with ghosts := ghostAdvanceAll cfg s.gameTime 0 (buildGhosts cfg s) } := by
  simp [ghostTickStep, h]

theorem buildGhosts_of_ne_nil {cfg : GhostCfg} {s : State} (h : s.ghosts ≠ []) :
    buildGhosts cfg s = s.ghosts := by
  have hne : s.ghosts.isEmpty = false := by
    cases hg : s.ghosts with
    | nil => exact absurd hg h
    | cons a l => rfl
  rw [buildGhosts, hne]
  rfl

theorem ghostAdvanceAll_get? (cfg : GhostCfg) (t : ℚ) (gs : List Ghost) (j k : ℕ) :
    (ghostAdvanceAll cfg t j gs).get? k = (gs.get? k).map (fun g => ghostStepOne cfg t (j + k) g) := by
  induction gs generalizing j k with
  | nil => simp [ghostAdvanceAll]
  | cons g gs ih =>
      cases k with
      | zero => simp [ghostAdvanceAll]
      | succ k =>
          simp only [ghostAdvanceAll, List.get?_cons_succ, ih (j + 1) k]
          rw [show j + 1 + k = j + (k + 1) from by omega]

theorem setGhostVel_get?_self (gs : List Ghost) (i : ℕ) (g : Ghost) (h : gs.get? i = some g) :
    (setGhostVel gs i).get? i = some { g with velocity := JUMP_VELOCITY } := by
  induction gs generalizing i with
  | nil => simp at h
  | cons a gs ih =>
      cases i with
      | zero =>
          simp only [List.get?_cons_zero, Option.some.injEq] at h
          subst h
          rfl
      | succ i =>
          simp only [List.get?_cons_succ] at h
          show (setGhostVel gs i).get? i = _
          exact ih i h

theorem get?_lt_length {α : Type} {l : List α} {i : ℕ} {a : α} (h : l.get? i = some a) :
    i < l.length := by
  by_contra hc
  push_neg at hc
  rw [List.get?_eq_none.mpr hc] at h
  exact Option.noConfusion h

/-- Claim C9: on a live tick, every present ghost whose recorded end
tick has been reached is marked finished with its position and velocity
frozen, and every other present ghost is advanced by `advanceGhost`,
the identical gravity-then-clamp rule the actor uses (conjunct two
equates it with the actor formulas); a ghost impulse sets the addressed
ghost velocity to the jump velocity exactly when its source run has not
yet ended at the current tick, and leaves it untouched otherwise. -/
theorem c9_theorem (cfg : GhostCfg) (s : State) (hE : s.gameEnd = false) (hne : s.ghosts ≠ []) :
    (∀ i g, s.ghosts.get? i = some g →
      ((∀ e, cfg.endTicks.get? i = some e → e ≤ s.gameTime →
          (ghostTickStep cfg s).ghosts.get? i = some { g with dead := true }) ∧
        (∀ e, cfg.endTicks.get? i = some e → s.gameTime < e →
          (ghostTickStep cfg s).ghosts.get? i = some (advanceGhost g)) ∧
        (cfg.endTicks.get? i = none →
          (ghostTickStep cfg s).ghosts.get? i = some (advanceGhost g)))) ∧
      (∀ g : Ghost, (advanceGhost g).velocity = birdNewVelocity (actorOf g) ∧
        (advanceGhost g).y = birdClampedY (actorOf g)) ∧
      (∀ i g, s.ghosts.get? i = some g →
        (ghostSourceActive cfg s i = true →
          (ghostFlapStep cfg i s).ghosts.get? i = some { g with velocity := JUMP_VELOCITY }) ∧
        (ghostSourceActive cfg s i = false →
          (ghostFlapStep cfg i s).ghosts.get? i = some g)) := by
  have hbuild : buildGhosts cfg s = s.ghosts := buildGhosts_of_ne_nil hne
  refine ⟨?_, ?_, ?_⟩
  · intro i g hgi
    have hTick : (ghostTickStep cfg s).ghosts.get? i = some (ghostStepOne cfg s.gameTime i g) := by
      rw [ghostTickStep_of_not_end hE]
      show (ghostAdvanceAll cfg s.gameTime 0 (buildGhosts cfg s)).get? i = _
      rw [hbuild, ghostAdvanceAll_get?, hgi]
      simp
    refine ⟨?_, ?_, ?_⟩
    · intro e he hle
      rw [hTick, ghostStepOne, he]
      simp only [Option.some.injEq]
      rw [if_pos hle]
    · intro e he hlt
      rw [hTick, ghostStepOne, he]
      simp only [Option.some.injEq]
      rw [if_neg (by exact fun hc => absurd hlt (not_lt.mpr hc))]
    · intro he
      rw [hTick, ghostStepOne, he]
  · exact fun g => ⟨rfl, rfl⟩
  · intro i g hgi
    have hlen : i < (buildGhosts cfg s).length := by
      rw [hbuild]
      exact get?_lt_length hgi
    constructor
    · intro hact
      show (if i < (buildGhosts cfg s).length ∧ ghostSourceActive cfg s i = true then
          { s with ghosts := setGhostVel (buildGhosts cfg s) i }
        else { s with ghosts := buildGhosts cfg s }).ghosts.get? i = _
      rw [if_pos ⟨hlen, hact⟩]
      show (setGhostVel (buildGhosts cfg s) i).get? i = _
      rw [hbuild]
      exact setGhostVel_get?_self s.ghosts i g hgi
    · intro hact
      show (if i < (buildGhosts cfg s).length ∧ ghostSourceActive cfg s i = true then
          { s with ghosts := setGhostVel (buildGhosts cfg s) i }
        else { s with ghosts := buildGhosts cfg s }).ghosts.get? i = _
      rw [if_neg (by rintro ⟨-, hc⟩; rw [hact] at hc; exact Bool.noConfusion hc)]
      show (buildGhosts cfg s).get? i = _
      rw [hbuild]
      exact hgi

/-- Claim C9 witness: the single live ghost (before its recorded end
tick 10) advances by gravity and clamp on a tick. -/
theorem c9_witness :
    (ghostTickStep oneGhostCfg oneGhostState).ghosts.get? 0 =
      some (advanceGhost { x := 180, y := 100, velocity := 2 }) :=
  (((c9_theorem oneGhostCfg oneGhostState rfl (by decide)).1 0
      { x := 180, y := 100, velocity := 2 } rfl).2.1) 10 rfl (by decide)

end Flappy
